import Mathlib

/-
Verification of the SunWolf-SUPT metric pipeline.

Shallow embedding of the Python sources over the rationals:
  app_v6_5_localfix.py, app_v6_6_localfix.py, app.py.
Machine floats are modelled as exact rationals; a float NaN produced by a
zero division is modelled as the `none` value of an `Option`.
-/

namespace SUPT

/-- Model of numpy's np.clip(x, lo, hi): values below lo become lo, above hi
become hi. -/
def npClip (x lo hi : ℚ) : ℚ := min hi (max lo x)

/-- Modelled from the spec: clamp01(x) = max(0, min(1, x)). -/
def clamp01 (x : ℚ) : ℚ := max 0 (min 1 x)

/-- compute_eii from app_v6_5_localfix.py line 61 and app_v6_6_localfix.py
line 29: np.clip(md_max*0.2 + md_mean*0.15 + shallow_ratio*0.4 + psi_s*0.25, 0, 1). -/
def compute_eii (md_max md_mean shallow_ratio psi_s : ℚ) : ℚ :=
  npClip (md_max * 0.2 + md_mean * 0.15 + shallow_ratio * 0.4 + psi_s * 0.25) 0 1

/-- classify_phase from app_v6_6_localfix.py lines 32-37. -/
def classify_phase (EII : ℚ) : String :=
  if EII ≥ 0.85 then "ACTIVE – Collapse Window Initiated"
  else if EII ≥ 0.6 then "ELEVATED – Pressure Coupling Phase"
  else "MONITORING – Stable"

/-- classify_phase from app_v6_5_localfix.py lines 64-70 (same bands, bare
MONITORING string). -/
def classify_phase_v65 (EII : ℚ) : String :=
  if EII ≥ 0.85 then "ACTIVE – Collapse Window Initiated"
  else if EII ≥ 0.6 then "ELEVATED – Pressure Coupling Phase"
  else "MONITORING"

/-- One normalized seismic event, the canonical record of the pipeline. -/
structure SeismicEvent where
  time : ℤ
  magnitude : ℚ
  depth_km : ℚ
  deriving DecidableEq, Repr

/-- shallow_ratio as computed in app_v6_5_localfix.py line 91 and
app_v6_6_localfix.py line 142: len(df[df.depth_km < 2.5]) / max(len(df), 1). -/
def shallow_ratio (events : List SeismicEvent) : ℚ :=
  ((events.filter fun e => decide (e.depth_km < 2.5)).length : ℚ)
    / ((max events.length 1 : ℕ) : ℚ)

/-- df.magnitude.max() over a nonempty event list; the 0 result on the empty
list is never used (the apps branch on emptiness first; pandas would give NaN). -/
def md_max : List SeismicEvent → ℚ
  | [] => 0
  | e :: es => (es.map SeismicEvent.magnitude).foldl max e.magnitude

/-- df.magnitude.mean() over a nonempty event list (sum divided by length;
on the empty list the rational convention 0/0 = 0 applies, never used). -/
def md_mean (events : List SeismicEvent) : ℚ :=
  (events.map SeismicEvent.magnitude).sum / (events.length : ℚ)

/-- The four scalars the v6.6 metrics block produces. -/
structure Metrics where
  md_max : ℚ
  md_mean : ℚ
  shallow_ratio : ℚ
  eii : ℚ
  deriving DecidableEq, Repr

/-- Metrics block of app_v6_6_localfix.py lines 136-144: on an empty frame
the three statistics are set to 0; EII is then computed from them either way. -/
def compute_metrics_v66 (events : List SeismicEvent) (psi_s : ℚ) : Metrics :=
  if events.isEmpty then
    ⟨0, 0, 0, compute_eii 0 0 0 psi_s⟩
  else
    ⟨md_max events, md_mean events, shallow_ratio events,
      compute_eii (md_max events) (md_mean events) (shallow_ratio events) psi_s⟩

/-- Metrics block of app_v6_5_localfix.py lines 88-95: on an empty frame the
pair (EII, RPAM) is set directly to (0.0, NO DATA). -/
def eii_rpam_v65 (events : List SeismicEvent) (psi_s : ℚ) : ℚ × String :=
  if events.isEmpty then (0, "NO DATA")
  else
    let EII := compute_eii (md_max events) (md_mean events) (shallow_ratio events) psi_s
    (EII, classify_phase_v65 EII)

/-- Geomagnetic branch of supt_diagnostic, app_v6_6_localfix.py lines 100-105. -/
def geomag_state (Kp : ℚ) : String :=
  if Kp ≥ 5 then "Geomagnetic Storm Active — potential resonance amplifier."
  else if Kp ≥ 3 then "Moderate Geomagnetic Activity — mild forcing potential."
  else "Quiet geomagnetic conditions."

/-- Coherence branch of supt_diagnostic, app_v6_6_localfix.py lines 90-98. -/
def coherence_state (CCI : ℚ) : String :=
  if CCI ≥ 0.7 then "Coherent"
  else if CCI ≥ 0.4 then "Moderate"
  else "Decoupled"

/-- Label triple produced by supt_diagnostic (app_v6_6_localfix.py lines
79-105); the f-string templating that follows is presentation only. -/
def supt_diagnostic (EII CCI Kp : ℚ) : String × String × String :=
  (classify_phase EII, coherence_state CCI, geomag_state Kp)

/- Helper lemmas -/

theorem min_one_max_zero (x : ℚ) : min 1 (max 0 x) = max 0 (min 1 x) := by
  rcases le_total x 0 with h | h
  · rw [max_eq_left h, min_eq_right (h.trans zero_le_one),
      min_eq_right (zero_le_one (α := ℚ))]
    exact (max_eq_left h).symm
  · rcases le_total x 1 with h1 | h1
    · rw [max_eq_right h, min_eq_right h1]
      exact (max_eq_right h).symm
    · rw [max_eq_right h, min_eq_left h1]
      exact (max_eq_right (zero_le_one (α := ℚ))).symm

theorem compute_eii_eq_clamp01 (a b c d : ℚ) :
    compute_eii a b c d = clamp01 (a * 0.20 + b * 0.15 + c * 0.40 + d * 0.25) := by
  have harg : a * 0.2 + b * 0.15 + c * 0.4 + d * 0.25
      = a * 0.20 + b * 0.15 + c * 0.40 + d * 0.25 := by norm_num
  unfold compute_eii npClip clamp01
  rw [harg, min_one_max_zero]

theorem compute_eii_nonneg (a b c d : ℚ) : 0 ≤ compute_eii a b c d :=
  le_min zero_le_one (le_max_left 0 _)

theorem compute_eii_le_one (a b c d : ℚ) : compute_eii a b c d ≤ 1 :=
  min_le_left 1 _

/- Schema normalizer: raw tables, magnitude extraction and the two loaders. -/

/-- One cell of a raw table. Numeric CSV cells arrive as num (pandas parses
numeric columns on read), parseable date cells as time, free text as str,
and an absent value as na. -/
inductive Cell where
  | str (s : String)
  | num (q : ℚ)
  | time (t : ℤ)
  | na
  deriving DecidableEq, Repr

/-- A raw tabular input: named columns and rows of cells aligned with them. -/
structure RawTable where
  cols : List String
  rows : List (List Cell)

/-- Value of one decimal-digit run, most significant first. -/
def digitsToNat (ds : List Char) : ℕ :=
  ds.foldl (fun a c => 10 * a + (c.toNat - 48)) 0

/-- Value of the numeric token that starts at a digit run ds followed by
rest. The pattern tried is a decimal first, then a bare integer, so a dot
followed by at least one digit extends the token and anything else ends it. -/
def tokenValue (ds rest : List Char) : ℚ :=
  match rest with
  | '.' :: r2 =>
    let fs := r2.takeWhile Char.isDigit
    if fs.isEmpty then (digitsToNat ds : ℚ)
    else (digitsToNat ds : ℚ) + (digitsToNat fs : ℚ) / (10 : ℚ) ^ fs.length
  | _ => (digitsToNat ds : ℚ)

/-- Leftmost numeric token of a character list, if any. -/
def findNumber : List Char → Option ℚ
  | [] => none
  | c :: cs =>
    if c.isDigit then
      some (tokenValue ((c :: cs).takeWhile Char.isDigit)
        ((c :: cs).dropWhile Char.isDigit))
    else findNumber cs

/-- clean_magnitude from app_v6_5_localfix.py lines 26-31: extract the first
decimal or integer token of the string; none models the NaN returned when no
token is present. -/
def clean_magnitude (s : String) : Option ℚ := findNumber s.data

/-- clean_magnitude applied to a cell. On a num cell the Python code
stringifies the float and re-extracts, which for plain decimal
representations returns the magnitude of the number; a time or absent cell
yields NaN. -/
def cleanMagnitudeCell : Cell → Option ℚ
  | Cell.str s => clean_magnitude s
  | Cell.num q => some |q|
  | _ => none

/-- Model of pd.to_datetime(x, errors=coerce) on one cell: a parseable
date (modelled as a time cell) maps to its instant, everything else to NaT. -/
def to_datetime : Cell → Option ℤ
  | Cell.time t => some t
  | _ => none

/-- Model of pd.to_numeric(x, errors=coerce) on one cell. -/
def to_numeric : Cell → Option ℚ
  | Cell.num q => some q
  | _ => none

/-- Python substring membership needle in hay, case sensitive. -/
def containsSeq (needle hay : List Char) : Bool :=
  match hay with
  | [] => needle.isEmpty
  | _ :: rest => needle.isPrefixOf hay || containsSeq needle rest

/-- Python expression needle in hay on strings. -/
def pyIn (needle hay : String) : Bool := containsSeq needle.data hay.data

/-- Column detection of app_v6_5_localfix.py line 38. -/
def findTimeCol (cols : List String) : Option String :=
  cols.find? fun c => pyIn "Time" c || pyIn "UTC" c

/-- Column detection of app_v6_5_localfix.py line 39. -/
def findMagCol (cols : List String) : Option String :=
  cols.find? fun c => pyIn "Mag" c || pyIn "Magnitude" c

/-- Column detection of app_v6_5_localfix.py line 40. -/
def findDepthCol (cols : List String) : Option String :=
  cols.find? fun c => pyIn "Depth" c

/-- Cell of a row under a named column (absent column or short row reads as
an absent value). -/
def getCell (cols : List String) (row : List Cell) (c : String) : Cell :=
  match cols.findIdx? (fun x => x = c) with
  | some i => row.getD i Cell.na
  | none => Cell.na

/-- Descending-time order on events. -/
def timeDescRel (a b : SeismicEvent) : Prop := b.time ≤ a.time

instance : DecidableRel timeDescRel :=
  fun a b => inferInstanceAs (Decidable (b.time ≤ a.time))

instance : IsTotal SeismicEvent timeDescRel :=
  ⟨fun a b => le_total b.time a.time⟩

instance : IsTrans SeismicEvent timeDescRel :=
  ⟨fun _ _ _ hab hbc => hbc.trans hab⟩

/-- Model of df.sort_values(time, ascending=False). -/
def sortTimeDesc (evs : List SeismicEvent) : List SeismicEvent :=
  List.insertionSort timeDescRel evs

/-- One row of the v6.5 loader: parse the three detected columns and keep
the row only when all three fields parse (the dropna on line 45). -/
def parseRow_v65 (cols : List String) (tc mc dc : String) (row : List Cell) :
    Option SeismicEvent :=
  match to_datetime (getCell cols row tc), cleanMagnitudeCell (getCell cols row mc),
      to_numeric (getCell cols row dc) with
  | some t, some m, some d => some ⟨t, m, d⟩
  | _, _, _ => none

/-- load_local_ingv_csv from app_v6_5_localfix.py lines 33-49: detect the
three columns by substring, parse and drop incomplete rows, sort by time
descending; a failed column lookup raises and the handler returns the empty
frame. -/
def load_local_ingv_csv (tbl : RawTable) : List SeismicEvent :=
  match findTimeCol tbl.cols, findMagCol tbl.cols, findDepthCol tbl.cols with
  | some tc, some mc, some dc =>
    sortTimeDesc (tbl.rows.filterMap (parseRow_v65 tbl.cols tc mc dc))
  | _, _, _ => []

/-- One row of the v6.6 loader, reading the fixed columns Time, MD, Depth. -/
def parseRow_v66 (cols : List String) (row : List Cell) : Option SeismicEvent :=
  match to_datetime (getCell cols row "Time"), to_numeric (getCell cols row "MD"),
      to_numeric (getCell cols row "Depth") with
  | some t, some m, some d => some ⟨t, m, d⟩
  | _, _, _ => none

/-- load_seismic_data from app_v6_6_localfix.py lines 51-62: requires the
exact source columns Time, MD and Depth (a missing one raises and the
handler returns the empty frame), drops incomplete rows and does not sort. -/
def load_seismic_data (tbl : RawTable) : List SeismicEvent :=
  if "Time" ∈ tbl.cols ∧ "MD" ∈ tbl.cols ∧ "Depth" ∈ tbl.cols then
    tbl.rows.filterMap (parseRow_v66 tbl.cols)
  else []

/-- Canonical v6.6 source row for an event. -/
def row_v66 (e : SeismicEvent) : List Cell :=
  [Cell.time e.time, Cell.num e.magnitude, Cell.num e.depth_km]

/- Claim theorems -/

/-- C1: for every event set and all rational inputs, compute_eii equals
clamp01(md_max*0.20 + md_mean*0.15 + shallow_ratio*0.40 + psi_s*0.25) and is
always in [0,1]; the v6.6 metric block satisfies the same identity on its
own md_max, md_mean and shallow_ratio fields. -/
theorem eii_clamp_spec (events : List SeismicEvent) (a b c d : ℚ) :
    compute_eii a b c d = clamp01 (a * 0.20 + b * 0.15 + c * 0.40 + d * 0.25)
  ∧ 0 ≤ compute_eii a b c d ∧ compute_eii a b c d ≤ 1
  ∧ (compute_metrics_v66 events d).eii
      = clamp01 ((compute_metrics_v66 events d).md_max * 0.20
          + (compute_metrics_v66 events d).md_mean * 0.15
          + (compute_metrics_v66 events d).shallow_ratio * 0.40 + d * 0.25) := by
  refine ⟨compute_eii_eq_clamp01 a b c d, compute_eii_nonneg a b c d,
    compute_eii_le_one a b c d, ?_⟩
  cases events with
  | nil => exact compute_eii_eq_clamp01 0 0 0 d
  | cons e es => exact compute_eii_eq_clamp01 _ _ _ _

/-- C2: classify_phase maps an EII at or above 0.85 to the ACTIVE phase,
an EII in [0.60, 0.85) to the ELEVATED phase and anything below 0.60 to
MONITORING, bands inclusive on their lower bound; in particular 0.85 is
ACTIVE, 0.849999 and 0.6 are ELEVATED, and 0.5999 is MONITORING. -/
theorem classify_phase_bands (e : ℚ) :
    (0.85 ≤ e → classify_phase e = "ACTIVE – Collapse Window Initiated")
  ∧ (0.6 ≤ e → e < 0.85 → classify_phase e = "ELEVATED – Pressure Coupling Phase")
  ∧ (e < 0.6 → classify_phase e = "MONITORING – Stable")
  ∧ classify_phase 0.85 = "ACTIVE – Collapse Window Initiated"
  ∧ classify_phase 0.849999 = "ELEVATED – Pressure Coupling Phase"
  ∧ classify_phase 0.6 = "ELEVATED – Pressure Coupling Phase"
  ∧ classify_phase 0.5999 = "MONITORING – Stable" := by
  refine ⟨?_, ?_, ?_, by with_unfolding_all decide, by with_unfolding_all decide, by with_unfolding_all decide, by with_unfolding_all decide⟩
  · intro h
    unfold classify_phase
    rw [if_pos (show e ≥ 0.85 from h)]
  · intro h1 h2
    unfold classify_phase
    rw [if_neg (show ¬ e ≥ 0.85 from not_le.mpr h2), if_pos (show e ≥ 0.6 from h1)]
  · intro h
    unfold classify_phase
    rw [if_neg (show ¬ e ≥ 0.85 from not_le.mpr (h.trans (by norm_num))),
      if_neg (show ¬ e ≥ 0.6 from not_le.mpr h)]

/-- Witness for C2 at a concrete interior point of the ELEVATED band. -/
theorem classify_phase_bands_witness :
    (0.6 : ℚ) ≤ 0.7 ∧ (0.7 : ℚ) < 0.85
  ∧ classify_phase 0.7 = "ELEVATED – Pressure Coupling Phase" :=
  ⟨by with_unfolding_all decide, by with_unfolding_all decide, (classify_phase_bands 0.7).2.1 (by with_unfolding_all decide) (by with_unfolding_all decide)⟩

/-- C3: shallow_ratio is the fraction of events with depth_km strictly below
2.5 over the denominator max(count, 1); it is 0 on the empty event set and
lies in [0,1] for every event set. -/
theorem shallow_ratio_spec (events : List SeismicEvent) :
    shallow_ratio events
      = ((events.filter fun e => decide (e.depth_km < 2.5)).length : ℚ)
        / ((max events.length 1 : ℕ) : ℚ)
  ∧ shallow_ratio [] = 0
  ∧ 0 ≤ shallow_ratio events ∧ shallow_ratio events ≤ 1 := by
  have hden : (0 : ℚ) < ((max events.length 1 : ℕ) : ℚ) := by
    exact_mod_cast Nat.lt_of_lt_of_le Nat.zero_lt_one (le_max_right _ _)
  refine ⟨rfl, by with_unfolding_all decide, ?_, ?_⟩
  · exact div_nonneg (Nat.cast_nonneg _) hden.le
  · unfold shallow_ratio
    rw [div_le_one hden]
    exact_mod_cast (List.length_filter_le _ _).trans (le_max_left _ _)

/-- C9: the geomagnetic label of the diagnostic engine is the Storm message
when kp is at least 5, the Moderate message when kp is in [3, 5) and the
Quiet message otherwise; in particular kp = 5.0 is Storm, kp = 4.999 is
Moderate and kp = 2.999 is Quiet. -/
theorem geomag_label_bands (k : ℚ) :
    (5 ≤ k → geomag_state k = "Geomagnetic Storm Active — potential resonance amplifier.")
  ∧ (3 ≤ k → k < 5 →
      geomag_state k = "Moderate Geomagnetic Activity — mild forcing potential.")
  ∧ (k < 3 → geomag_state k = "Quiet geomagnetic conditions.")
  ∧ (supt_diagnostic 0 0 k).2.2 = geomag_state k
  ∧ geomag_state 5.0 = "Geomagnetic Storm Active — potential resonance amplifier."
  ∧ geomag_state 4.999 = "Moderate Geomagnetic Activity — mild forcing potential."
  ∧ geomag_state 2.999 = "Quiet geomagnetic conditions." := by
  refine ⟨?_, ?_, ?_, rfl, by with_unfolding_all decide, by with_unfolding_all decide, by with_unfolding_all decide⟩
  · intro h
    unfold geomag_state
    rw [if_pos (show k ≥ 5 from h)]
  · intro h1 h2
    unfold geomag_state
    rw [if_neg (show ¬ k ≥ 5 from not_le.mpr h2), if_pos (show k ≥ 3 from h1)]
  · intro h
    unfold geomag_state
    rw [if_neg (show ¬ k ≥ 5 from not_le.mpr (h.trans (by norm_num))),
      if_neg (show ¬ k ≥ 3 from not_le.mpr h)]

/-- Witness for C9 at a concrete interior point of the Moderate band. -/
theorem geomag_label_bands_witness :
    (3 : ℚ) ≤ 4 ∧ (4 : ℚ) < 5
  ∧ geomag_state 4 = "Moderate Geomagnetic Activity — mild forcing potential." :=
  ⟨by with_unfolding_all decide, by with_unfolding_all decide, (geomag_label_bands 4).2.1 (by with_unfolding_all decide) (by with_unfolding_all decide)⟩

/-- C10: compute_eii is monotone non-decreasing in each of its four
arguments (stated jointly: raising any subset of the arguments never
lowers the result). -/
theorem compute_eii_monotone (a b c d a' b' c' d' : ℚ)
    (h1 : a ≤ a') (h2 : b ≤ b') (h3 : c ≤ c') (h4 : d ≤ d') :
    compute_eii a b c d ≤ compute_eii a' b' c' d' := by
  unfold compute_eii npClip
  have hsum : a * 0.2 + b * 0.15 + c * 0.4 + d * 0.25
      ≤ a' * 0.2 + b' * 0.15 + c' * 0.4 + d' * 0.25 := by linarith
  exact min_le_min le_rfl (max_le_max le_rfl hsum)

/-- Witness for C10 at concrete inputs. -/
theorem compute_eii_monotone_witness :
    (0 : ℚ) ≤ 1 ∧ (0.1 : ℚ) ≤ 0.2 ∧ (0.3 : ℚ) ≤ 0.5 ∧ (0.4 : ℚ) ≤ 0.4
  ∧ compute_eii 0 0.1 0.3 0.4 ≤ compute_eii 1 0.2 0.5 0.4 :=
  ⟨by with_unfolding_all decide, by with_unfolding_all decide, by with_unfolding_all decide, by with_unfolding_all decide,
    compute_eii_monotone 0 0.1 0.3 0.4 1 0.2 0.5 0.4
      (by with_unfolding_all decide) (by with_unfolding_all decide) (by with_unfolding_all decide) (by with_unfolding_all decide)⟩

/-- C6 counterexample: a table already carrying the canonical column names
time, magnitude, depth_km is rejected by both loaders (neither recognizes
the lowercase names), so its content does not round-trip; moreover the v6.6
loader preserves input order and its output is not sorted descending by
time when the input is ascending. -/
theorem normalize_roundtrip_counterexample :
    load_local_ingv_csv ⟨["time", "magnitude", "depth_km"],
        [[Cell.time 100, Cell.num 2, Cell.num 1]]⟩ = []
  ∧ load_seismic_data ⟨["time", "magnitude", "depth_km"],
        [[Cell.time 100, Cell.num 2, Cell.num 1]]⟩
      ≠ [(⟨100, 2, 1⟩ : SeismicEvent)]
  ∧ load_seismic_data ⟨["Time", "MD", "Depth"],
        [[Cell.time 1, Cell.num 2, Cell.num 3], [Cell.time 5, Cell.num 2, Cell.num 3]]⟩
      = [(⟨1, 2, 3⟩ : SeismicEvent), ⟨5, 2, 3⟩]
  ∧ ¬ List.Sorted timeDescRel
      (load_seismic_data ⟨["Time", "MD", "Depth"],
        [[Cell.time 1, Cell.num 2, Cell.num 3], [Cell.time 5, Cell.num 2, Cell.num 3]]⟩) := by
  refine ⟨by with_unfolding_all decide, by with_unfolding_all decide, by with_unfolding_all decide, ?_⟩
  intro hs
  rw [show load_seismic_data ⟨["Time", "MD", "Depth"],
        [[Cell.time 1, Cell.num 2, Cell.num 3], [Cell.time 5, Cell.num 2, Cell.num 3]]⟩
      = [(⟨1, 2, 3⟩ : SeismicEvent), ⟨5, 2, 3⟩] from by with_unfolding_all decide] at hs
  have h51 : timeDescRel ⟨1, 2, 3⟩ ⟨5, 2, 3⟩ :=
    List.rel_of_sorted_cons hs _ (List.mem_singleton_self _)
  exact absurd h51 (by with_unfolding_all decide)

/-- C6 amended: a table carrying the v6.6 source column names Time, MD,
Depth with typed cells round-trips field-for-field through the v6.6 loader
in input order (which is therefore not re-sorted); the v6.5 loader's output
is sorted descending by time for every input table; and a table carrying
the canonical lowercase names yields the empty event set from both loaders. -/
theorem normalize_roundtrip_amended :
    (∀ evs : List SeismicEvent,
        load_seismic_data ⟨["Time", "MD", "Depth"], evs.map row_v66⟩ = evs)
  ∧ (∀ tbl : RawTable, List.Sorted timeDescRel (load_local_ingv_csv tbl))
  ∧ (∀ rows : List (List Cell),
        load_seismic_data ⟨["time", "magnitude", "depth_km"], rows⟩ = []
      ∧ load_local_ingv_csv ⟨["time", "magnitude", "depth_km"], rows⟩ = []) := by
  refine ⟨?_, ?_, ?_⟩
  · intro evs
    have key : ∀ l : List SeismicEvent,
        List.filterMap (parseRow_v66 ["Time", "MD", "Depth"]) (l.map row_v66) = l := by
      intro l
      induction l with
      | nil => rfl
      | cons e es ih =>
        have hrow : parseRow_v66 ["Time", "MD", "Depth"] (row_v66 e) = some e := rfl
        simp [List.filterMap_cons, hrow, ih]
    exact key evs
  · intro tbl
    unfold load_local_ingv_csv
    cases findTimeCol tbl.cols with
    | none => exact List.sorted_nil
    | some tc =>
      cases findMagCol tbl.cols with
      | none => exact List.sorted_nil
      | some mc =>
        cases findDepthCol tbl.cols with
        | none => exact List.sorted_nil
        | some dc => exact List.sorted_insertionSort timeDescRel _
  · intro rows
    exact ⟨rfl, rfl⟩

/-- C7: the magnitude extractor takes the first decimal or integer numeric
token of a free-form string, so the INGV cell Useless 0.5±0.3 yields 0.5; a
string with no numeric token yields a missing magnitude and the v6.5 loader
drops any row whose magnitude cell is missing. -/
theorem clean_magnitude_spec (cols : List String) (tc mc dc : String)
    (row : List Cell) (h : cleanMagnitudeCell (getCell cols row mc) = none) :
    clean_magnitude "Useless 0.5±0.3" = some (1 / 2)
  ∧ clean_magnitude "no numbers here" = none
  ∧ parseRow_v65 cols tc mc dc row = none
  ∧ load_local_ingv_csv ⟨["Time", "Magnitude", "Depth"],
        [[Cell.time 10, Cell.str "Useless 0.5±0.3", Cell.num 3],
         [Cell.time 20, Cell.str "no numbers here", Cell.num 4]]⟩
      = [(⟨10, 1 / 2, 3⟩ : SeismicEvent)] := by
  refine ⟨by with_unfolding_all decide, by with_unfolding_all decide, ?_, by with_unfolding_all decide⟩
  unfold parseRow_v65
  rw [h]
  cases to_datetime (getCell cols row tc) <;> rfl

/-- fetch_kp from app.py lines 47-55: the response is the parsed JSON rows
when the request and the parse succeed, and any exception in the try block
(transport failure, empty data, short row) falls back to 3.0. -/
def fetch_kp (resp : Option (List (List ℚ))) : ℚ :=
  match resp with
  | none => 3
  | some data =>
    match data.getLast? with
    | none => 3
    | some latest =>
      match latest[1]? with
      | none => 3
      | some v => v

/-- fetch_geomag_data from app_v6_5_localfix.py lines 51-59: same shape,
but the fallback constant is 0.0. -/
def fetch_geomag_data (resp : Option (List (List ℚ))) : ℚ :=
  match resp with
  | none => 0
  | some data =>
    match data.getLast? with
    | none => 0
    | some latest =>
      match latest[1]? with
      | none => 0
      | some v => v

/-- fetch_noaa_kp from app_v6_6_localfix.py lines 40-49: same shape, and
the fallback constant is 0.0. -/
def fetch_noaa_kp (resp : Option (List (List ℚ))) : ℚ :=
  match resp with
  | none => 0
  | some data =>
    match data.getLast? with
    | none => 0
    | some latest =>
      match latest[1]? with
      | none => 0
      | some v => v

/-- C4 counterexample: on the empty event set with the default slider value
psi_s = 0.72 the v6.5 metrics block reports EII = 0, not
clamp01(psi_s * 0.25) = 0.18. -/
theorem empty_metrics_counterexample :
    eii_rpam_v65 [] 0.72 = (0, "NO DATA")
  ∧ clamp01 ((0.72 : ℚ) * 0.25) = 0.18
  ∧ (eii_rpam_v65 [] 0.72).1 ≠ clamp01 ((0.72 : ℚ) * 0.25) := by
  refine ⟨rfl, by with_unfolding_all decide, by with_unfolding_all decide⟩

/-- C4 amended: on the empty event set the v6.6 metrics block returns
md_max = md_mean = shallow_ratio = 0 and eii = clamp01(psi_s * 0.25),
while the v6.5 metrics block instead returns EII = 0 with phase NO DATA. -/
theorem empty_metrics_amended (psi_s : ℚ) :
    compute_metrics_v66 [] psi_s = ⟨0, 0, 0, clamp01 (psi_s * 0.25)⟩
  ∧ eii_rpam_v65 [] psi_s = (0, "NO DATA") := by
  constructor
  · show (⟨0, 0, 0, compute_eii 0 0 0 psi_s⟩ : Metrics) = ⟨0, 0, 0, clamp01 (psi_s * 0.25)⟩
    have harg : (0 : ℚ) * 0.20 + 0 * 0.15 + 0 * 0.40 + psi_s * 0.25 = psi_s * 0.25 := by
      ring
    rw [compute_eii_eq_clamp01 0 0 0 psi_s, harg]
  · rfl

/-- C8 counterexample: on a failed fetch the v6.5 and v6.6 geomagnetic
fetchers return the constant 0.0, not the 3.0 default (which only app.py
uses). -/
theorem fetch_fallback_counterexample :
    fetch_geomag_data none = 0 ∧ fetch_noaa_kp none = 0
  ∧ fetch_geomag_data none ≠ 3 ∧ fetch_noaa_kp none ≠ 3 := by
  refine ⟨rfl, rfl, by with_unfolding_all decide, by with_unfolding_all decide⟩

/-- C8 amended: every failure mode (no response, empty JSON array, row
without a second field) makes app.py's fetch_kp return the constant 3.0 and
makes the v6.5 fetch_geomag_data and v6.6 fetch_noaa_kp return the constant
0.0; a well-formed response returns its last row's second field; no fetcher
propagates the failure. -/
theorem fetch_fallback_amended (t k : ℚ) (rows : List (List ℚ)) :
    fetch_kp none = 3 ∧ fetch_kp (some []) = 3 ∧ fetch_kp (some [[t]]) = 3
  ∧ fetch_geomag_data none = 0 ∧ fetch_geomag_data (some []) = 0
  ∧ fetch_geomag_data (some [[t]]) = 0
  ∧ fetch_noaa_kp none = 0 ∧ fetch_noaa_kp (some []) = 0
  ∧ fetch_noaa_kp (some [[t]]) = 0
  ∧ fetch_kp (some (rows ++ [[t, k]])) = k
  ∧ fetch_geomag_data (some (rows ++ [[t, k]])) = k
  ∧ fetch_noaa_kp (some (rows ++ [[t, k]])) = k := by
  have hlast : (rows ++ [[t, k]]).getLast? = some [t, k] := List.getLast?_concat _
  refine ⟨rfl, rfl, rfl, rfl, rfl, rfl, rfl, rfl, rfl, ?_, ?_, ?_⟩
  · have hstep : fetch_kp (some (rows ++ [[t, k]]))
        = match (rows ++ [[t, k]]).getLast? with
          | none => 3
          | some latest =>
            match latest[1]? with
            | none => 3
            | some v => v := rfl
    rw [hstep, hlast]
    rfl
  · have hstep : fetch_geomag_data (some (rows ++ [[t, k]]))
        = match (rows ++ [[t, k]]).getLast? with
          | none => 0
          | some latest =>
            match latest[1]? with
            | none => 0
            | some v => v := rfl
    rw [hstep, hlast]
    rfl
  · have hstep : fetch_noaa_kp (some (rows ++ [[t, k]]))
        = match (rows ++ [[t, k]]).getLast? with
          | none => 0
          | some latest =>
            match latest[1]? with
            | none => 0
            | some v => v := rfl
    rw [hstep, hlast]
    rfl

/-- Witness for C7: a concrete row whose magnitude cell has no numeric
token is rejected by the row parser. -/
theorem clean_magnitude_spec_witness :
    cleanMagnitudeCell (getCell ["Time", "Magnitude", "Depth"]
        [Cell.time 10, Cell.str "no numbers here", Cell.num 3] "Magnitude") = none
  ∧ parseRow_v65 ["Time", "Magnitude", "Depth"] "Time" "Magnitude" "Depth"
      [Cell.time 10, Cell.str "no numbers here", Cell.num 3] = none :=
  ⟨by with_unfolding_all decide,
    (clean_magnitude_spec ["Time", "Magnitude", "Depth"] "Time" "Magnitude" "Depth"
      [Cell.time 10, Cell.str "no numbers here", Cell.num 3] (by with_unfolding_all decide)).2.2.1⟩

/- Coherence estimator of app_v6_6_localfix.py lines 156-165. -/

/-- Model of Series.rolling(3, min_periods=1).mean(): entry i is the mean of
the window ending at i of size at most 3. -/
def rollingMean3 (xs : List ℚ) : List ℚ :=
  (List.range xs.length).map fun i =>
    let w := (xs.drop (i - 2)).take (i + 1 - (i - 2))
    w.sum / (w.length : ℚ)

/-- Model of np.linspace(a, b, n): n evenly spaced points from a to b. -/
def linspace (a b : ℚ) (n : ℕ) : List ℚ :=
  if n = 1 then [a]
  else (List.range n).map fun i => a + (b - a) * (i : ℚ) / ((n : ℚ) - 1)

/-- One step of np.interp over the (xp, fp) pairs, xp increasing: clamp
below the first node, above the last node, linear in between. -/
def interpPairs (t : ℚ) : List (ℚ × ℚ) → ℚ
  | [] => 0
  | [(_, fy)] => fy
  | (x1, y1) :: (x2, y2) :: rest =>
    if t < x1 then y1
    else if t ≤ x2 then y1 + (y2 - y1) * (t - x1) / (x2 - x1)
    else interpPairs t ((x2, y2) :: rest)

/-- Model of np.interp(t, xp, fp). -/
def npInterp (t : ℚ) (xp fp : List ℚ) : ℚ := interpPairs t (xp.zip fp)

/-- Model of np.mean. -/
def npMean (xs : List ℚ) : ℚ := xs.sum / (xs.length : ℚ)

/-- Square of np.std: the population variance. The signal normalization of
lines 161-162 divides by np.std, which is zero exactly when this is zero. -/
def npVar (xs : List ℚ) : ℚ := npMean (xs.map fun x => (x - npMean xs) ^ 2)

/-- Model of np.cov-style mean product of deviations, used by np.corrcoef. -/
def npCov (xs ys : List ℚ) : ℚ :=
  npMean ((xs.zip ys).map fun p => (p.1 - npMean xs) * (p.2 - npMean ys))

/-- The depth signal of app_v6_6_localfix.py lines 159-160: interpolate the
range-clamped, window-3 smoothed depth sequence onto 24 sample points. -/
def depth_signal (events : List SeismicEvent) : List ℚ :=
  (linspace 0 ((events.length : ℚ) - 1) 24).map fun t =>
    npInterp t ((List.range events.length).map fun i => (i : ℚ))
      ((rollingMean3 (events.map SeismicEvent.depth_km)).map fun x => npClip x 0 5)

/-- Z-normalize both signals then square the Pearson correlation, lines
161-163. When either signal has zero variance the float code divides by a
zero np.std and np.corrcoef propagates NaN, modelled as none. Otherwise the
squared correlation of the z-scores equals the squared correlation of the
raw signals (correlation is invariant under the affine z-scaling and the
sign disappears in the square), which is the rational
cov(xs, ys)^2 / (var(xs) * var(ys)). -/
def cciOfSignals (xs ys : List ℚ) : Option ℚ :=
  if npVar xs = 0 ∨ npVar ys = 0 then none
  else some (npCov xs ys ^ 2 / (npVar xs * npVar ys))

/-- The CCI block of app_v6_6_localfix.py lines 156-165: 0.0 for an empty
frame, 0 for a single event (the len(df) greater than 1 guard), and the
squared correlation of the 24-sample pressure-proxy history against the
24-sample depth signal otherwise. The psi history is np.random.normal noise
around psi_s; it is passed here as an explicit argument (an injected noise
source), so every theorem quantifies over it. -/
def cci_v66 (psi_hist : List ℚ) (events : List SeismicEvent) : Option ℚ :=
  if events.isEmpty then some 0
  else if 1 < events.length then cciOfSignals psi_hist (depth_signal events)
  else some 0

set_option maxRecDepth 100000 in
/-- C5, code_bug evidence: there is no zero-variance guard in the code. Two
events at the same depth make the smoothed, clamped, resampled depth signal
constant, its variance zero, and the computed cci NaN (none) for this (and
any) injected psi history — not the claimed 0. The guards that do exist
(empty frame, single event) return 0. -/
theorem cci_zero_variance_nan :
    cci_v66 (linspace 0 1 24) [⟨0, 1, 3⟩, ⟨1, 2, 3⟩] = none
  ∧ cci_v66 (linspace 0 1 24) [] = some 0
  ∧ cci_v66 (linspace 0 1 24) [⟨0, 1, 3⟩] = some 0
  ∧ cci_v66 (linspace 0 1 24) [⟨0, 1, 3⟩, ⟨1, 2, 3⟩] ≠ some 0 := by
  refine ⟨by with_unfolding_all decide, rfl, rfl, by with_unfolding_all decide⟩

end SUPT
